import Mathlib

/-!
Verification of the VOPL specification editor's core: the heuristic
spec-quality scorer (`getMockScore`), the external analysis adapter
(`analyzeSpec`), the field autogeneration path (`autogenField`,
`getMockAutogenResult`, `buildAutogenPrompt`), the inference helpers
(`inferFieldFromIssue`, `inferFieldFromSuggestion`) from
`src/api/specAnalysis.ts`, and the project store's `deleteNode` operation
from `src/stores/projectStore.ts`.

Modelling conventions:
* JavaScript numbers are modelled as exact rationals (`ℚ`); every quantity
  the scorer computes is exactly representable, so the idealised rational
  model matches the float semantics on all stated facts.
* JavaScript string operations are modelled on the character list of the
  string (`String.toList`); `toLowerCase` is modelled ASCII-wise via
  `Char.toLower`, and `String.prototype.length` as the number of scalar
  values (the sources only rely on lengths of plain text).
* `Date.now()` is impure; every function that stamps a timestamp takes the
  current time as an explicit `now : Nat` argument.
* The external model call (network + `JSON.parse`) is modelled as an
  oracle argument: an `AnalysisOutcome` (resp. `AutogenOutcome`) describing
  what the try-block observed — a transport error, a non-text content
  block, a JSON parse failure, or a successfully parsed payload.
-/

namespace VOPL

/-! ### JavaScript string primitives -/

/-- Substring test on character lists: `pattern` occurs contiguously in the
list. Used to model `String.prototype.includes`. -/
def isSubstring (pattern : List Char) : List Char → Bool
  | [] => pattern.isEmpty
  | c :: rest => pattern.isPrefixOf (c :: rest) || isSubstring pattern rest

/-- Model of JavaScript `s.includes(pattern)`. -/
def jsIncludes (s pattern : String) : Bool :=
  isSubstring pattern.toList s.toList

/-- Model of JavaScript `s.startsWith(pattern)`. -/
def jsStartsWith (s pattern : String) : Bool :=
  pattern.toList.isPrefixOf s.toList

/-- Model of JavaScript `s.length` (number of characters). -/
def jsLength (s : String) : Nat :=
  s.toList.length

/-- Model of JavaScript `s.toLowerCase()` (ASCII case folding). -/
def jsToLower (s : String) : String :=
  ⟨s.toList.map Char.toLower⟩

/-- Model of JavaScript `Math.round`: round half toward positive infinity. -/
def jsRound (x : ℚ) : ℚ :=
  ((⌊x + 1 / 2⌋ : ℤ) : ℚ)

/-- Model of JavaScript `s || fallback` for strings: the empty string is
falsy and is replaced by the fallback. -/
def jsOr (s fallback : String) : String :=
  if s == "" then fallback else s

/-- Model of JavaScript `x || undefined` on an optional string: both a
missing value and an empty string yield `undefined`. -/
def jsOrUndefined (s : Option String) : Option String :=
  match s with
  | none => none
  | some v => if v == "" then none else some v

/-- Model of the JavaScript truthiness test `!KEY` on the optional
environment variable `VITE_ANTHROPIC_API_KEY`: both an unset variable and
the empty string are falsy. -/
def jsKeyMissing (apiKey : Option String) : Bool :=
  match apiKey with
  | none => true
  | some k => k == ""

/-! ### Data model (`src/types/vopl.ts`) -/

/-- The closed enumeration of node types. -/
inductive VOPLNodeType where
  | trigger
  | process
  | integration
  | output
deriving DecidableEq

/-- The string value of a `VOPLNodeType` (the TypeScript union is a union
of string literals; interpolating a node's type into a prompt produces this
string). -/
def VOPLNodeType.str : VOPLNodeType → String
  | .trigger => "trigger"
  | .process => "process"
  | .integration => "integration"
  | .output => "output"

/-- An input or output port of a node. -/
structure PortDefinition where
  name : String
  description : String
  shape : String
deriving DecidableEq

/-- An input/output example attached to a node. -/
structure Example where
  input : String
  output : String
  notes : String
deriving DecidableEq

/-- The per-node specification payload. -/
structure VOPLNodeData where
  name : String
  intent : String
  inputs : List PortDefinition
  outputs : List PortDefinition
  behavior : String
  examples : List Example
  constraints : List String
deriving DecidableEq

/-- A node of the specification graph. The canvas position is carried but
never read by any operation embedded here. -/
structure VOPLNode where
  id : String
  type : VOPLNodeType
  position : ℚ × ℚ
  data : VOPLNodeData
deriving DecidableEq

/-- A directed edge of the specification graph. -/
structure VOPLEdge where
  id : String
  source : String
  target : String
  sourceHandle : Option String
  targetHandle : Option String
  label : Option String
deriving DecidableEq

/-- The six global system-context fields. -/
structure SystemContext where
  environment : String
  constraints : String
  infrastructure : String
  dependencies : String
  security : String
  nonFunctional : String
deriving DecidableEq

/-- Issue severity. -/
inductive Severity where
  | error
  | warning
  | info
deriving DecidableEq

/-- Scoring dimension. -/
inductive Dimension where
  | completeness
  | ambiguity
  | consistency
  | groundedness
deriving DecidableEq

/-- A single analysis issue. -/
structure SpecIssue where
  severity : Severity
  dimension : Dimension
  nodeId : Option String
  edgeId : Option String
  field : Option String
  message : String
deriving DecidableEq

/-- One dimension's score plus free-text details. -/
structure DimensionScore where
  score : ℚ
  details : List String
deriving DecidableEq

/-- The full analysis result. -/
structure SpecScore where
  overall : ℚ
  completeness : DimensionScore
  ambiguity : DimensionScore
  consistency : DimensionScore
  groundedness : DimensionScore
  issues : List SpecIssue
  suggestions : List String
  lastUpdated : Nat
deriving DecidableEq

/-- The whole project (the specification graph aggregate). -/
structure VOPLProject where
  id : String
  name : String
  systemContext : SystemContext
  nodes : List VOPLNode
  edges : List VOPLEdge
  specScore : Option SpecScore
  lastModified : Nat
deriving DecidableEq

/-! ### Heuristic scorer (`getMockScore`, `src/api/specAnalysis.ts` 201-322) -/

/-- Model of `Object.values(project.systemContext)` (line 210): the six context
fields in declaration order. -/
def contextFieldsOf (project : VOPLProject) : List String :=
  [project.systemContext.environment,
   project.systemContext.constraints,
   project.systemContext.infrastructure,
   project.systemContext.dependencies,
   project.systemContext.security,
   project.systemContext.nonFunctional]

/-- Value of `filledContext` (line 211): context fields that are truthy and longer
than 10 characters. -/
def filledContextCount (project : VOPLProject) : Nat :=
  ((contextFieldsOf project).filter
    (fun v => v != "" && decide (jsLength v > 10))).length

/-- Per-node completeness score (lines 231-250): the running sum built by
the six `if (...) score += k` steps. -/
def nodeScore (node : VOPLNode) : Nat :=
  (if node.data.name != "" && !(jsStartsWith node.data.name "New ") then 10 else 0) +
  (if node.data.intent != "" && decide (jsLength node.data.intent > 20) then 20 else 0) +
  (if node.data.behavior != "" && decide (jsLength node.data.behavior > 50) then 30 else 0) +
  (if node.data.inputs.any (fun i => i.shape != "" && i.shape != "unknown") then 15 else 0) +
  (if node.data.outputs.any (fun o => o.shape != "" && o.shape != "unknown") then 15 else 0) +
  (if node.data.examples.length > 0 then 10 else 0)

/-- The final value of the mutable `completenessScore` (lines 204, 212,
224, 253): the system-context contribution plus either the forced floor 10
(no nodes) or the scaled average of the per-node scores. -/
def completenessScoreOf (project : VOPLProject) : ℚ :=
  if project.nodes.isEmpty then 10
  else ((filledContextCount project : ℚ) / ((contextFieldsOf project).length : ℚ)) * 20 +
    (((project.nodes.map nodeScore).sum : ℚ) / ((project.nodes.length : ℚ) * 100)) * 80

/-- Model of `unconnectedNodes` (lines 258-262): nodes with no incoming and no
outgoing edge. -/
def unconnectedNodes (project : VOPLProject) : List VOPLNode :=
  project.nodes.filter (fun node =>
    let hasIncoming := project.edges.any (fun e => e.target == node.id)
    let hasOutgoing := project.edges.any (fun e => e.source == node.id)
    !hasIncoming && !hasOutgoing)

/-- The disconnected nodes that are actually penalised: the whole check is
guarded by `project.edges.length > 0` (line 257). -/
def penalisedUnconnected (project : VOPLProject) : List VOPLNode :=
  if 0 < project.edges.length then unconnectedNodes project else []

/-- The final value of the mutable `consistencyScore` (lines 206, 265):
baseline 80 minus 10 per penalised disconnected node. -/
def consistencyScoreOf (project : VOPLProject) : ℚ :=
  80 - 10 * ((penalisedUnconnected project).length : ℚ)

/-- The system-context warning (lines 214-220), emitted when fewer than 3
context fields are filled. -/
def contextIssuesOf (project : VOPLProject) : List SpecIssue :=
  if filledContextCount project < 3 then
    [⟨.warning, .completeness, none, none, none,
      "System context is incomplete. Fill in environment, infrastructure, and dependencies."⟩]
  else []

/-- The no-nodes error (lines 223-229) or the per-node intent warnings
(lines 240-248). -/
def nodeIssuesOf (project : VOPLProject) : List SpecIssue :=
  if project.nodes.isEmpty then
    [⟨.error, .completeness, none, none, none,
      "No nodes defined. Add at least one trigger and one output node."⟩]
  else
    project.nodes.filterMap (fun node =>
      if decide (jsLength node.data.intent < 20) || jsStartsWith node.data.intent "Describe" then
        some ⟨.warning, .ambiguity, some node.id, none, some "intent",
          "\"" ++ node.data.name ++ "\" needs a clearer intent description."⟩
      else none)

/-- The disconnected-node warnings (lines 266-273). -/
def unconnectedIssuesOf (project : VOPLProject) : List SpecIssue :=
  (penalisedUnconnected project).map (fun node =>
    ⟨.warning, .consistency, some node.id, none, none,
      "\"" ++ node.data.name ++ "\" is not connected to any other node."⟩)

/-- The structural trigger/output nudges (lines 278-295). -/
def structuralIssuesOf (project : VOPLProject) : List SpecIssue :=
  (if !(project.nodes.any (fun n => n.type == .trigger)) && !project.nodes.isEmpty then
    [⟨.info, .completeness, none, none, none,
      "Consider adding a Trigger node to define how the flow starts."⟩]
  else []) ++
  (if !(project.nodes.any (fun n => n.type == .output)) && !project.nodes.isEmpty then
    [⟨.info, .completeness, none, none, none,
      "Consider adding an Output node to define the flow result."⟩]
  else [])

/-- The fixed suggestion list truncated to the top 3 (lines 297-303). -/
def mockSuggestions : List String :=
  (["Add detailed behavior descriptions with error handling to each node.",
    "Define explicit data shapes (types) for all inputs and outputs.",
    "Include examples for edge cases, not just happy paths.",
    "Fill in the System Context to provide implementation context.",
    "Ensure all nodes are connected in the data flow."]).take 3

/-- Model of `getMockScore` (lines 201-322): the deterministic heuristic scorer. -/
def getMockScore (now : Nat) (project : VOPLProject) : SpecScore :=
  let completenessScore := completenessScoreOf project
  let ambiguityScore : ℚ := 50
  let consistencyScore := consistencyScoreOf project
  let groundednessScore : ℚ := 60
  { overall := jsRound (completenessScore * 0.35 + ambiguityScore * 0.25 +
      consistencyScore * 0.25 + groundednessScore * 0.15),
    completeness := ⟨jsRound completenessScore, []⟩,
    ambiguity := ⟨ambiguityScore, []⟩,
    consistency := ⟨consistencyScore, []⟩,
    groundedness := ⟨groundednessScore, []⟩,
    issues := contextIssuesOf project ++ nodeIssuesOf project ++
      unconnectedIssuesOf project ++ structuralIssuesOf project,
    suggestions := mockSuggestions,
    lastUpdated := now }

/-! ### External analysis adapter (`analyzeSpec`, lines 134-199)

The network call and `JSON.parse` are modelled as an oracle argument
(`AnalysisOutcome`). The try-block can observe: a thrown transport error, a
first content block that is not of type `text` (line 160-162), a
`JSON.parse` failure (line 164), or a successfully parsed payload, which is
then normalised exactly as in lines 166-193. -/

/-- A dimension object of the parsed external JSON: `score` plus an
optionally absent `details` array. -/
structure RawDimension where
  score : ℚ
  details : Option (List String)
deriving DecidableEq

/-- An issue object of the parsed external JSON; every field may be absent
(or empty, which the normalisation treats as falsy). -/
structure RawIssue where
  severity : Option Severity
  dimension : Option Dimension
  nodeId : Option String
  field : Option String
  message : Option String
deriving DecidableEq

/-- The parsed external JSON payload. -/
structure RawAnalysis where
  overall : ℚ
  completeness : RawDimension
  ambiguity : RawDimension
  consistency : RawDimension
  groundedness : RawDimension
  issues : Option (List RawIssue)
  suggestions : Option (List String)
deriving DecidableEq

/-- What the external call's try-block observed. -/
inductive AnalysisOutcome where
  | transportError
  | nonTextContent
  | parseError
  | parsed (result : RawAnalysis)
deriving DecidableEq

/-- Model of JavaScript `x || fallback` on an optional string where the
fallback is a non-empty default. -/
def jsOrOpt (s : Option String) (fallback : String) : String :=
  match s with
  | none => fallback
  | some v => if v == "" then fallback else v

/-- Model of `analyzeSpec` (lines 134-199): with no credential, delegate to the
heuristic scorer; otherwise normalise a successfully parsed payload, and on
any failure fall back to the heuristic scorer (the catch block, line 194). -/
def analyzeSpec (apiKey : Option String) (now : Nat) (project : VOPLProject)
    (outcome : AnalysisOutcome) : SpecScore :=
  if jsKeyMissing apiKey then getMockScore now project
  else
    match outcome with
    | .parsed result =>
      { overall := result.overall,
        completeness := ⟨result.completeness.score, result.completeness.details.getD []⟩,
        ambiguity := ⟨result.ambiguity.score, result.ambiguity.details.getD []⟩,
        consistency := ⟨result.consistency.score, result.consistency.details.getD []⟩,
        groundedness := ⟨result.groundedness.score, result.groundedness.details.getD []⟩,
        issues := (result.issues.getD []).map (fun issue =>
          ⟨issue.severity.getD .warning, issue.dimension.getD .completeness,
           jsOrUndefined issue.nodeId, none, jsOrUndefined issue.field,
           jsOrOpt issue.message "Unknown issue"⟩),
        suggestions := result.suggestions.getD [],
        lastUpdated := now }
    | _ => getMockScore now project

/-! ### Field autogeneration (`specAnalysis.ts` lines 6-20, 324-541) -/

/-- The six regenerable field kinds. -/
inductive AutogenFieldType where
  | intent
  | behavior
  | inputs
  | outputs
  | examples
  | constraints
deriving DecidableEq

/-- The string value of an `AutogenFieldType` (the TypeScript type is a
union of these string literals). -/
def AutogenFieldType.str : AutogenFieldType → String
  | .intent => "intent"
  | .behavior => "behavior"
  | .inputs => "inputs"
  | .outputs => "outputs"
  | .examples => "examples"
  | .constraints => "constraints"

/-- The `value` member of an autogen result: string, port list, example
list, or string list. -/
inductive AutogenValue where
  | str (s : String)
  | ports (l : List PortDefinition)
  | exampleList (l : List Example)
  | strList (l : List String)
deriving DecidableEq

/-- Model of `AutogenResult` (lines 8-13). -/
structure AutogenResult where
  success : Bool
  field : AutogenFieldType
  value : AutogenValue
  error : Option String
deriving DecidableEq

/-- Model of `AutogenContext` (lines 15-20). -/
structure AutogenContext where
  project : VOPLProject
  nodeId : String
  field : AutogenFieldType
  issueMessage : String

/-- Model of `.replace(/^new\s+/i, '')` as applied in the mock intent
template: the argument is already lowercased, so the case-insensitive flag
is moot; a leading `new` followed by at least one whitespace character is
removed together with that whitespace run. -/
def stripLeadingNew (s : String) : String :=
  let cs := s.toList
  if ['n', 'e', 'w'].isPrefixOf cs then
    match cs.drop 3 with
    | [] => s
    | c :: rest => if c.isWhitespace then ⟨(c :: rest).dropWhile Char.isWhitespace⟩ else s
  else s

/-- Model of `getMockAutogenResult` (lines 455-541): templated placeholder values;
a node id not present in the graph yields the not-found failure result. -/
def getMockAutogenResult (context : AutogenContext) : AutogenResult :=
  match context.project.nodes.find? (fun n => n.id == context.nodeId) with
  | none => ⟨false, context.field, .str "", some "Node not found"⟩
  | some node =>
    let nodeName := node.data.name
    let nodeType := node.type
    match context.field with
    | .intent =>
      ⟨true, context.field, .str
        ((if nodeType == .trigger then "Handle incoming"
          else if nodeType == .process then "Process and transform"
          else if nodeType == .integration then "Integrate with external service to"
          else "Produce output for") ++ " " ++
         stripLeadingNew (jsToLower nodeName) ++ " operations"), none⟩
    | .behavior =>
      ⟨true, context.field, .str
        ("## Overview\nThis " ++ nodeType.str ++ " node handles " ++ jsToLower nodeName ++
         " operations.\n\n## Steps\n1. Receive input data\n2. Validate the input format\n3. Process according to business rules\n4. Return the result or appropriate error\n\n## Error Handling\n- Return descriptive error messages\n- Log errors for debugging"),
        none⟩
    | .inputs =>
      ⟨true, context.field, .ports
        (if node.data.inputs.length > 0 then
          node.data.inputs.map (fun i =>
            { i with
              shape := if i.shape == "unknown" then "\x7b data: unknown \x7d" else i.shape,
              description := jsOr i.description ("Input data for " ++ i.name) })
        else [⟨"input", "Primary input data", "\x7b data: unknown \x7d"⟩]), none⟩
    | .outputs =>
      ⟨true, context.field, .ports
        (if node.data.outputs.length > 0 then
          node.data.outputs.map (fun o =>
            { o with
              shape := if o.shape == "unknown" then "\x7b result: unknown \x7d" else o.shape,
              description := jsOr o.description ("Output data from " ++ o.name) })
        else [⟨"output", "Primary output data", "\x7b result: unknown \x7d"⟩]), none⟩
    | .examples =>
      ⟨true, context.field, .exampleList
        [⟨"\x7b \"data\": \"example input\" \x7d", "\x7b \"result\": \"processed output\" \x7d",
          "Happy path scenario"⟩,
         ⟨"\x7b \"data\": null \x7d", "\x7b \"error\": \"Invalid input\" \x7d",
          "Error handling example"⟩], none⟩
    | .constraints =>
      ⟨true, context.field, .strList
        ["Must complete within reasonable time limits",
         "Should handle invalid input gracefully",
         "Must maintain data consistency"], none⟩

/-- The per-field instruction block of the autogen prompt (lines 368-391). -/
def autogenFieldInstructions : AutogenFieldType → String
  | .intent =>
    "Generate a clear, one-sentence intent description that explains the purpose of this node.\nReturn JSON: \x7b \"value\": \"Your intent description here\" \x7d"
  | .behavior =>
    "Generate a detailed behavior description in markdown format that explains:\n- What this node does step by step\n- How it handles different cases\n- Error handling approach\nReturn JSON: \x7b \"value\": \"Your markdown behavior description\" \x7d"
  | .inputs =>
    "Generate appropriate input port definitions based on what this node needs to receive.\nReturn JSON: \x7b \"value\": [\x7b \"name\": \"portName\", \"description\": \"what this input receives\", \"shape\": \"TypeScript type notation\" \x7d] \x7d"
  | .outputs =>
    "Generate appropriate output port definitions based on what this node produces.\nReturn JSON: \x7b \"value\": [\x7b \"name\": \"portName\", \"description\": \"what this output produces\", \"shape\": \"TypeScript type notation\" \x7d] \x7d"
  | .examples =>
    "Generate 2-3 concrete input/output examples that demonstrate this node's behavior.\nInclude at least one happy path and one edge case or error scenario.\nReturn JSON: \x7b \"value\": [\x7b \"input\": \"JSON input string\", \"output\": \"JSON output string\", \"notes\": \"scenario description\" \x7d] \x7d"
  | .constraints =>
    "Generate 2-3 technical constraints or requirements for this node.\nFocus on performance, security, or implementation constraints.\nReturn JSON: \x7b \"value\": [\"constraint 1\", \"constraint 2\"] \x7d"

/-- Model of `buildAutogenPrompt` (lines 324-409). The `throw` on a missing node
(line 329) is modelled as the `Except.error` branch. -/
def buildAutogenPrompt (context : AutogenContext) : Except String String :=
  match context.project.nodes.find? (fun n => n.id == context.nodeId) with
  | none => .error ("Node " ++ context.nodeId ++ " not found")
  | some node =>
    let project := context.project
    let systemContextStr :=
      "\n## System Context\n- Environment: " ++
      jsOr project.systemContext.environment "(not specified)" ++
      "\n- Constraints: " ++ jsOr project.systemContext.constraints "(not specified)" ++
      "\n- Infrastructure: " ++ jsOr project.systemContext.infrastructure "(not specified)" ++
      "\n- Dependencies: " ++ jsOr project.systemContext.dependencies "(not specified)" ++
      "\n- Security: " ++ jsOr project.systemContext.security "(not specified)" ++
      "\n- Non-Functional: " ++ jsOr project.systemContext.nonFunctional "(not specified)" ++ "\n"
    let connectedNodes := String.intercalate "\n"
      ((project.edges.filter (fun e => e.source == context.nodeId || e.target == context.nodeId)).filterMap
        (fun e =>
          let connectedId := if e.source == context.nodeId then e.target else e.source
          let direction := if e.source == context.nodeId then "outputs to" else "receives from"
          match project.nodes.find? (fun n => n.id == connectedId) with
          | some connectedNode =>
            some ("- " ++ direction ++ " \"" ++ connectedNode.data.name ++ "\" (" ++
              connectedNode.type.str ++ "): " ++ connectedNode.data.intent)
          | none => none))
    let currentNodeStr :=
      "\n## Current Node: \"" ++ node.data.name ++ "\" (" ++ node.type.str ++ ")\n**Intent:** " ++
      jsOr node.data.intent "(empty)" ++ "\n**Inputs:** " ++
      (if node.data.inputs.length > 0 then
        String.intercalate ", " (node.data.inputs.map (fun i => i.name ++ ": " ++ jsOr i.shape "unknown"))
      else "(none)") ++ "\n**Outputs:** " ++
      (if node.data.outputs.length > 0 then
        String.intercalate ", " (node.data.outputs.map (fun o => o.name ++ ": " ++ jsOr o.shape "unknown"))
      else "(none)") ++ "\n**Behavior:** " ++ jsOr node.data.behavior "(empty)" ++
      "\n**Examples:** " ++
      (if node.data.examples.length > 0 then
        String.intercalate "; " (node.data.examples.map (fun e => "Input: " ++ e.input ++ " → Output: " ++ e.output))
      else "(none)") ++ "\n**Constraints:** " ++
      (if node.data.constraints.length > 0 then String.intercalate ", " node.data.constraints
      else "(none)") ++ "\n\n**Connected to:**\n" ++ jsOr connectedNodes "(no connections)" ++ "\n"
    .ok ("You are helping complete a software specification. Generate the " ++
      context.field.str ++ " field for a node based on the context provided.\n\n" ++
      systemContextStr ++ "\n\n" ++ currentNodeStr ++ "\n\n## Issue to Address\n" ++
      context.issueMessage ++ "\n\n## Task\n" ++ autogenFieldInstructions context.field ++
      "\n\nImportant:\n- Base your response on all available context (system context, node type, connected nodes)\n- Be specific and practical\n- Only return valid JSON, no markdown code blocks")

/-- What the autogen external call's try-block observed. -/
inductive AutogenOutcome where
  | transportError
  | nonTextContent
  | parseError
  | parsed (value : AutogenValue)
deriving DecidableEq

/-- Model of `autogenField` (lines 411-453): no credential routes to the mock
generator; with a credential, `buildAutogenPrompt` throwing, a transport
error, non-text content, or a parse failure are all caught and converted
to the mock result; a successfully parsed payload yields a success
result carrying its `value`. -/
def autogenField (apiKey : Option String) (context : AutogenContext)
    (outcome : AutogenOutcome) : AutogenResult :=
  if jsKeyMissing apiKey then getMockAutogenResult context
  else
    match buildAutogenPrompt context with
    | .error _ => getMockAutogenResult context
    | .ok _ =>
      match outcome with
      | .parsed value => ⟨true, context.field, value, none⟩
      | _ => getMockAutogenResult context

/-! ### Inference helpers (`specAnalysis.ts` lines 544-628) -/

/-- The explicit field-name map (lines 549-557), including the
`|| null` default for unrecognised names. -/
def fieldMap (f : String) : Option AutogenFieldType :=
  if f == "intent" then some .intent
  else if f == "behavior" then some .behavior
  else if f == "inputs" then some .inputs
  else if f == "outputs" then some .outputs
  else if f == "examples" then some .examples
  else if f == "constraints" then some .constraints
  else none

/-- The keyword chain over the lowercased message (lines 561-578). -/
def keywordField (message : String) : Option AutogenFieldType :=
  if jsIncludes message "intent" || jsIncludes message "purpose" then some .intent
  else if jsIncludes message "behavior" || jsIncludes message "description" || jsIncludes message "describe" then
    some .behavior
  else if jsIncludes message "input" && !(jsIncludes message "output") then some .inputs
  else if jsIncludes message "output" && !(jsIncludes message "input") then some .outputs
  else if jsIncludes message "example" || jsIncludes message "edge case" then some .examples
  else if jsIncludes message "constraint" || jsIncludes message "requirement" || jsIncludes message "limit" then
    some .constraints
  else none

/-- The dimension-based default (lines 581-588). -/
def dimensionDefaultField (dimension : Dimension) : Option AutogenFieldType :=
  if dimension == .completeness then some .behavior
  else if dimension == .ambiguity then some .intent
  else none

/-- Keyword inference followed by the dimension default (lines 561-588). -/
def inferFromMessageOrDimension (message : String) (dimension : Dimension) :
    Option AutogenFieldType :=
  match keywordField message with
  | some k => some k
  | none => dimensionDefaultField dimension

/-- Model of `inferFieldFromIssue` (lines 544-589). A present, non-empty explicit
field name is mapped through `fieldMap` (the JavaScript truthiness test
`if (issue.field)` treats an empty string like an absent one). -/
def inferFieldFromIssue (issue : SpecIssue) : Option AutogenFieldType :=
  let message := jsToLower issue.message
  match issue.field with
  | some f =>
    if f != "" then fieldMap f
    else inferFromMessageOrDimension message issue.dimension
  | none => inferFromMessageOrDimension message issue.dimension

/-- The keyword classification of `inferFieldFromSuggestion` (lines
606-627): once a target node is fixed, every branch returns a
`(field, nodeId)` pair; the final fallback is `behavior`. -/
def suggestionFieldFor (suggestionLower : String) (t : VOPLNode) :
    AutogenFieldType × String :=
  if jsIncludes suggestionLower "behavior" || jsIncludes suggestionLower "description" ||
      jsIncludes suggestionLower "error handling" then
    (.behavior, t.id)
  else if jsIncludes suggestionLower "example" || jsIncludes suggestionLower "edge case" then
    (.examples, t.id)
  else if jsIncludes suggestionLower "type" || jsIncludes suggestionLower "shape" then
    (if jsIncludes suggestionLower "input" then (.inputs, t.id)
     else if jsIncludes suggestionLower "output" then (.outputs, t.id)
     else (.inputs, t.id))
  else if jsIncludes suggestionLower "constraint" || jsIncludes suggestionLower "requirement" then
    (.constraints, t.id)
  else
    (.behavior, t.id)

/-- Model of `inferFieldFromSuggestion` (lines 592-628): pick the first node whose
literal name occurs in the suggestion, defaulting to the first node;
return `none` exactly when the graph has no nodes; then classify the
lowercased suggestion by keyword via `suggestionFieldFor`. -/
def inferFieldFromSuggestion (suggestion : String) (project : VOPLProject) :
    Option (AutogenFieldType × String) :=
  let suggestionLower := jsToLower suggestion
  let targetNode : Option VOPLNode :=
    match project.nodes.find? (fun node => jsIncludes suggestion node.data.name) with
    | some node => some node
    | none => project.nodes.head?
  match targetNode with
  | none => none
  | some t => some (suggestionFieldFor suggestionLower t)

/-! ### Project store (`src/stores/projectStore.ts`) -/

/-- The slice of the Zustand store state touched by `deleteNode`. -/
structure ProjectState where
  project : VOPLProject
  selectedNodeId : Option String
  isPanelOpen : Bool
  isSystemContextOpen : Bool
  isAnalyzing : Bool
deriving DecidableEq

/-- Model of `deleteNode` (`projectStore.ts` lines 138-149): drop the node with the
given id and every edge whose source or target is that id, stamp
`lastModified`, and clear the selection/panel when the deleted node was
selected. -/
def deleteNode (now : Nat) (nodeId : String) (state : ProjectState) : ProjectState :=
  { state with
    project := { state.project with
      nodes := state.project.nodes.filter (fun node => node.id != nodeId),
      edges := state.project.edges.filter
        (fun edge => edge.source != nodeId && edge.target != nodeId),
      lastModified := now },
    selectedNodeId := if state.selectedNodeId == some nodeId then none else state.selectedNodeId,
    isPanelOpen := if state.selectedNodeId == some nodeId then false else state.isPanelOpen }

/-! ### Concrete instances used by witnesses and counterexamples -/

/-- A fully empty system context. -/
def emptySystemContext : SystemContext :=
  ⟨"", "", "", "", "", ""⟩

/-- The empty project: no nodes, no edges, empty system context. -/
def emptyProject : VOPLProject :=
  ⟨"p0", "Untitled Project", emptySystemContext, [], [], none, 0⟩

/-- A node with entirely blank data. -/
def bareNode (id : String) : VOPLNode :=
  ⟨id, .process, (0, 0), ⟨"", "", [], [], "", [], []⟩⟩

/-- Eleven blank nodes with a single edge between the first two: nine nodes
are disconnected while an edge exists, so the consistency score is
`80 - 90 = -10`. -/
def c1CounterProject : VOPLProject :=
  ⟨"p1", "many isolated nodes", emptySystemContext,
   [bareNode "n1", bareNode "n2", bareNode "n3", bareNode "n4", bareNode "n5",
    bareNode "n6", bareNode "n7", bareNode "n8", bareNode "n9", bareNode "n10",
    bareNode "n11"],
   [⟨"e1", "n1", "n2", none, none, none⟩], none, 0⟩

/-- A node whose only input port has the placeholder shape `unknown`. -/
def c4WitnessNode : VOPLNode :=
  ⟨"w4", .process, (0, 0),
   ⟨"Validate Input", "", [⟨"body", "Request body", "unknown"⟩], [], "", [], []⟩⟩

/-- Three blank nodes with one edge between the first two; the third is
disconnected. -/
def c5WitnessProject : VOPLProject :=
  ⟨"p5", "one stray node", emptySystemContext,
   [bareNode "m1", bareNode "m2", bareNode "m3"],
   [⟨"e1", "m1", "m2", none, none, none⟩], none, 0⟩

/-- Two isolated nodes and no edges at all. -/
def c5NoEdgesProject : VOPLProject :=
  ⟨"p5e", "edge-free", emptySystemContext,
   [bareNode "k1", bareNode "k2"], [], none, 0⟩

/-- A project with zero nodes but a fully filled system context (every
field longer than 10 characters). -/
def c6WitnessProject : VOPLProject :=
  ⟨"p6", "context only",
   ⟨"Node.js 20.x runtime on Linux",
    "Max 100MB memory, 10s request timeout",
    "PostgreSQL database for user storage",
    "bcrypt and the Express.js web framework",
    "HTTPS only with rate limiting",
    "Response time under 500ms"⟩,
   [], [], none, 0⟩

/-- A node named `Validate Input` (its name does not occur in the fixed
behavior suggestion). -/
def c8NodeA : VOPLNode :=
  ⟨"n8a", .process, (0, 0), ⟨"Validate Input", "", [], [], "", [], []⟩⟩

/-- A node named `each node` (its name does occur in the fixed behavior
suggestion). -/
def c8NodeB : VOPLNode :=
  ⟨"n8b", .output, (0, 0), ⟨"each node", "", [], [], "", [], []⟩⟩

/-- A two-node project where the second node's name occurs in the fixed
behavior suggestion. -/
def c8WitnessProject : VOPLProject :=
  ⟨"p8", "suggestion target", emptySystemContext, [c8NodeA, c8NodeB], [], none, 0⟩

/-- An autogen request naming a node id that does not exist in its
(empty) graph. -/
def c9WitnessContext : AutogenContext :=
  ⟨emptyProject, "ghost", .intent, "please fill this in"⟩

/-- A store state with two nodes, one edge touching node `a` and one
self-loop on node `b`. -/
def c10WitnessState : ProjectState :=
  ⟨⟨"p10", "store", emptySystemContext,
    [bareNode "a", bareNode "b"],
    [⟨"e1", "a", "b", none, none, none⟩, ⟨"e2", "b", "b", none, none, none⟩],
    none, 0⟩,
   some "a", true, false, false⟩

/-! ### Helper lemmas -/

theorem floor_one_half : ⌊(1 / 2 : ℚ)⌋ = 0 := by
  norm_num [Int.floor_eq_iff]

theorem jsRound_intCast (n : ℤ) : jsRound ((n : ℚ)) = (n : ℚ) := by
  unfold jsRound
  rw [add_comm, Int.floor_add_int, floor_one_half, zero_add]

theorem jsRound_nonneg {x : ℚ} (h : 0 ≤ x) : 0 ≤ jsRound x := by
  unfold jsRound
  have h2 : (0 : ℤ) ≤ ⌊x + 1 / 2⌋ := Int.le_floor.mpr (by push_cast; linarith)
  exact_mod_cast h2

theorem jsRound_le (n : ℤ) {x : ℚ} (h : x ≤ (n : ℚ)) : jsRound x ≤ (n : ℚ) := by
  unfold jsRound
  have h2 : ⌊x + 1 / 2⌋ ≤ ⌊(n : ℚ) + 1 / 2⌋ := Int.floor_le_floor (by linarith)
  rw [add_comm (n : ℚ), Int.floor_add_int, floor_one_half, zero_add] at h2
  exact_mod_cast h2

theorem ite_le_nat {c : Prop} [Decidable c] (k : Nat) : (if c then k else 0) ≤ k := by
  split <;> omega

theorem nodeScore_le_100 (node : VOPLNode) : nodeScore node ≤ 100 := by
  unfold nodeScore
  refine Nat.le_trans
    (Nat.add_le_add (Nat.add_le_add (Nat.add_le_add (Nat.add_le_add
      (Nat.add_le_add (ite_le_nat 10) (ite_le_nat 20)) (ite_le_nat 30))
      (ite_le_nat 15)) (ite_le_nat 15)) (ite_le_nat 10)) (by norm_num)

theorem sum_nodeScores_le (nodes : List VOPLNode) :
    (nodes.map nodeScore).sum ≤ nodes.length * 100 := by
  induction nodes with
  | nil => simp
  | cons n t ih =>
    simp only [List.map_cons, List.sum_cons, List.length_cons]
    have h := nodeScore_le_100 n
    omega

theorem contextFieldsOf_length (p : VOPLProject) : (contextFieldsOf p).length = 6 := rfl

theorem filledContextCount_le (p : VOPLProject) : filledContextCount p ≤ 6 := by
  unfold filledContextCount
  have h := List.length_filter_le
    (fun v => v != "" && decide (jsLength v > 10)) (contextFieldsOf p)
  simpa [contextFieldsOf_length] using h

theorem completenessScoreOf_nonneg (p : VOPLProject) : 0 ≤ completenessScoreOf p := by
  unfold completenessScoreOf
  split
  · norm_num
  · positivity

theorem completenessScoreOf_le_100 (p : VOPLProject) : completenessScoreOf p ≤ 100 := by
  unfold completenessScoreOf
  split
  · norm_num
  · rename_i h
    have hnodes : p.nodes ≠ [] := by simpa [List.isEmpty_iff] using h
    have hlen : 0 < p.nodes.length := List.length_pos.mpr hnodes
    have hf : (filledContextCount p : ℚ) ≤ 6 := by exact_mod_cast filledContextCount_le p
    have hctx : ((filledContextCount p : ℚ) / ((contextFieldsOf p).length : ℚ)) * 20 ≤ 20 := by
      rw [contextFieldsOf_length]
      have h6 : (filledContextCount p : ℚ) / ((6 : ℕ) : ℚ) ≤ 1 := by
        rw [div_le_one (by norm_num)]
        push_cast
        exact hf
      nlinarith [h6]
    have hctx0 : 0 ≤ ((filledContextCount p : ℚ) / ((contextFieldsOf p).length : ℚ)) * 20 := by
      positivity
    have hS : ((p.nodes.map nodeScore).sum : ℚ) ≤ (p.nodes.length : ℚ) * 100 := by
      have h2 := (Nat.cast_le (α := ℚ)).mpr (sum_nodeScores_le p.nodes)
      rw [Nat.cast_mul, Nat.cast_ofNat] at h2
      exact h2
    have hpos : (0 : ℚ) < (p.nodes.length : ℚ) * 100 := by
      have : (0 : ℚ) < (p.nodes.length : ℚ) := by exact_mod_cast hlen
      nlinarith
    have hnode : (((p.nodes.map nodeScore).sum : ℚ) / ((p.nodes.length : ℚ) * 100)) * 80 ≤ 80 := by
      have hq : ((p.nodes.map nodeScore).sum : ℚ) / ((p.nodes.length : ℚ) * 100) ≤ 1 := by
        rw [div_le_one hpos]
        exact hS
      nlinarith [hq]
    linarith

theorem consistencyScoreOf_le_80 (p : VOPLProject) : consistencyScoreOf p ≤ 80 := by
  unfold consistencyScoreOf
  have h : (0 : ℚ) ≤ ((penalisedUnconnected p).length : ℚ) := by positivity
  linarith

/-! ### Claim theorems -/

/-- C1 (counterexample): on a graph of eleven blank nodes with a single
edge, nine nodes are disconnected and the consistency score is
`80 - 90 = -10`, so it does not lie in `[0, 100]` as the claim states. -/
theorem consistency_score_not_clamped :
    ¬ (0 ≤ (getMockScore 0 c1CounterProject).consistency.score ∧
       (getMockScore 0 c1CounterProject).consistency.score ≤ 100) := by
  have h9 : (penalisedUnconnected c1CounterProject).length = 9 := by decide
  have hc : (getMockScore 0 c1CounterProject).consistency.score = -10 := by
    show consistencyScoreOf c1CounterProject = -10
    unfold consistencyScoreOf
    rw [h9]
    norm_num
  intro hcontra
  rw [hc] at hcontra
  have h := hcontra.1
  norm_num at h

/-- C1 (amended): for every graph, the heuristic completeness score lies in
`[0, 100]`, ambiguity is the constant 50 and groundedness the constant 60,
and consistency and overall are bounded above (by 80 and 100); but the
consistency score — and with it the overall score — has no lower bound of
0, since `80 - 10·(disconnected count)` is never clamped. -/
theorem getMockScore_bounds_amended (now : Nat) (p : VOPLProject) :
    0 ≤ (getMockScore now p).completeness.score ∧
    (getMockScore now p).completeness.score ≤ 100 ∧
    (getMockScore now p).ambiguity.score = 50 ∧
    (getMockScore now p).groundedness.score = 60 ∧
    (getMockScore now p).consistency.score ≤ 80 ∧
    (getMockScore now p).overall ≤ 100 := by
  have hc0 := completenessScoreOf_nonneg p
  have hc1 := completenessScoreOf_le_100 p
  have hcons := consistencyScoreOf_le_80 p
  refine ⟨?_, ?_, rfl, rfl, ?_, ?_⟩
  · show 0 ≤ jsRound (completenessScoreOf p)
    exact jsRound_nonneg hc0
  · show jsRound (completenessScoreOf p) ≤ 100
    have h := jsRound_le 100 (x := completenessScoreOf p) (by exact_mod_cast hc1)
    exact_mod_cast h
  · exact hcons
  · show jsRound (completenessScoreOf p * 0.35 + 50 * 0.25 +
      consistencyScoreOf p * 0.25 + 60 * 0.15) ≤ 100
    have hsum : completenessScoreOf p * 0.35 + 50 * 0.25 +
        consistencyScoreOf p * 0.25 + 60 * 0.15 ≤ ((100 : ℤ) : ℚ) := by
      push_cast
      linarith
    have h := jsRound_le 100 hsum
    exact_mod_cast h

/-- C2: on the empty graph the heuristic scorer yields completeness 10,
ambiguity 50, consistency 80, groundedness 60, overall 45; exactly one
issue of severity `error` (the no-nodes issue) and no consistency-dimension
(disconnected-node) issues. -/
theorem getMockScore_empty_graph :
    (getMockScore 0 emptyProject).completeness.score = 10 ∧
    (getMockScore 0 emptyProject).ambiguity.score = 50 ∧
    (getMockScore 0 emptyProject).consistency.score = 80 ∧
    (getMockScore 0 emptyProject).groundedness.score = 60 ∧
    (getMockScore 0 emptyProject).overall = 45 ∧
    (getMockScore 0 emptyProject).issues.filter
      (fun i => i.severity == Severity.error) =
      [⟨.error, .completeness, none, none, none,
        "No nodes defined. Add at least one trigger and one output node."⟩] ∧
    (getMockScore 0 emptyProject).issues.filter
      (fun i => i.dimension == Dimension.consistency) = [] := by
  have hcomp : completenessScoreOf emptyProject = 10 := rfl
  have hlen : (penalisedUnconnected emptyProject).length = 0 := rfl
  have hcons : consistencyScoreOf emptyProject = 80 := by
    unfold consistencyScoreOf
    rw [hlen]
    norm_num
  refine ⟨?_, rfl, ?_, rfl, ?_, by decide, by decide⟩
  · show jsRound (completenessScoreOf emptyProject) = 10
    rw [hcomp]
    norm_num [jsRound, Int.floor_eq_iff]
  · exact hcons
  · show jsRound (completenessScoreOf emptyProject * 0.35 + 50 * 0.25 +
      consistencyScoreOf emptyProject * 0.25 + 60 * 0.15) = 45
    rw [hcomp, hcons]
    norm_num [jsRound, Int.floor_eq_iff]

theorem contextIssues_filter_consistency (p : VOPLProject) :
    (contextIssuesOf p).filter (fun i => i.dimension == Dimension.consistency) = [] := by
  unfold contextIssuesOf
  split <;> rfl

theorem nodeIssues_filter_consistency (p : VOPLProject) :
    (nodeIssuesOf p).filter (fun i => i.dimension == Dimension.consistency) = [] := by
  unfold nodeIssuesOf
  split
  · rfl
  · rw [List.filter_eq_nil_iff]
    intro a ha
    rw [List.mem_filterMap] at ha
    obtain ⟨n, hn, hfn⟩ := ha
    split at hfn
    · rw [Option.some_inj] at hfn
      rw [← hfn]
      simp
    · simp at hfn

theorem unconnectedIssues_filter_consistency (p : VOPLProject) :
    (unconnectedIssuesOf p).filter (fun i => i.dimension == Dimension.consistency) =
      unconnectedIssuesOf p := by
  rw [List.filter_eq_self]
  intro a ha
  unfold unconnectedIssuesOf at ha
  rw [List.mem_map] at ha
  obtain ⟨n, hn, rfl⟩ := ha
  rfl

theorem structuralIssues_filter_consistency (p : VOPLProject) :
    (structuralIssuesOf p).filter (fun i => i.dimension == Dimension.consistency) = [] := by
  unfold structuralIssuesOf
  rw [List.filter_append]
  split <;> split <;> rfl

theorem mock_issues_filter_consistency (now : Nat) (p : VOPLProject) :
    (getMockScore now p).issues.filter (fun i => i.dimension == Dimension.consistency) =
      unconnectedIssuesOf p := by
  show (contextIssuesOf p ++ nodeIssuesOf p ++ unconnectedIssuesOf p ++
    structuralIssuesOf p).filter (fun i => i.dimension == Dimension.consistency) =
    unconnectedIssuesOf p
  rw [List.filter_append, List.filter_append, List.filter_append,
    contextIssues_filter_consistency, nodeIssues_filter_consistency,
    unconnectedIssues_filter_consistency, structuralIssues_filter_consistency]
  simp

/-- C5: with at least one edge, the consistency score is exactly
`80 - 10·(number of nodes with neither incoming nor outgoing edges)`, and
one consistency warning carrying each such node's id is emitted; with no
edges at all, the score stays 80 and no disconnected-node issues are
emitted, however many isolated nodes exist. -/
theorem unconnected_penalty_spec (now : Nat) (p : VOPLProject) :
    (p.edges ≠ [] →
      (getMockScore now p).consistency.score =
        80 - 10 * ((unconnectedNodes p).length : ℚ) ∧
      (getMockScore now p).issues.filter
        (fun i => i.dimension == Dimension.consistency) =
        (unconnectedNodes p).map (fun node =>
          (⟨.warning, .consistency, some node.id, none, none,
            "\"" ++ node.data.name ++ "\" is not connected to any other node."⟩ : SpecIssue))) ∧
    (p.edges = [] →
      (getMockScore now p).consistency.score = 80 ∧
      (getMockScore now p).issues.filter
        (fun i => i.dimension == Dimension.consistency) = []) := by
  constructor
  · intro h
    have hpen : penalisedUnconnected p = unconnectedNodes p := by
      unfold penalisedUnconnected
      rw [if_pos (List.length_pos.mpr h)]
    constructor
    · show consistencyScoreOf p = 80 - 10 * ((unconnectedNodes p).length : ℚ)
      unfold consistencyScoreOf
      rw [hpen]
    · rw [mock_issues_filter_consistency]
      unfold unconnectedIssuesOf
      rw [hpen]
  · intro h
    have hpen : penalisedUnconnected p = [] := by
      unfold penalisedUnconnected
      rw [h]
      simp
    constructor
    · show consistencyScoreOf p = 80
      unfold consistencyScoreOf
      rw [hpen]
      norm_num
    · rw [mock_issues_filter_consistency]
      unfold unconnectedIssuesOf
      rw [hpen]
      rfl

/-- Witness for C5: a graph with one edge and one stray node is penalised
and warned about exactly once; an edge-free graph with two isolated nodes
is exempt. -/
theorem unconnected_penalty_witness :
    ((getMockScore 0 c5WitnessProject).consistency.score =
        80 - 10 * ((unconnectedNodes c5WitnessProject).length : ℚ) ∧
      (getMockScore 0 c5WitnessProject).issues.filter
        (fun i => i.dimension == Dimension.consistency) =
        (unconnectedNodes c5WitnessProject).map (fun node =>
          (⟨.warning, .consistency, some node.id, none, none,
            "\"" ++ node.data.name ++ "\" is not connected to any other node."⟩ : SpecIssue))) ∧
    ((getMockScore 0 c5NoEdgesProject).consistency.score = 80 ∧
      (getMockScore 0 c5NoEdgesProject).issues.filter
        (fun i => i.dimension == Dimension.consistency) = []) :=
  ⟨(unconnected_penalty_spec 0 c5WitnessProject).1 (by decide),
   (unconnected_penalty_spec 0 c5NoEdgesProject).2 rfl⟩

/-- C6: with zero nodes, the completeness score is forced to 10 regardless
of the system context, the single error issue demanding a Trigger and an
Output node is emitted, and the per-node scoring step is skipped (no
per-node ambiguity issues appear). -/
theorem no_nodes_floor (now : Nat) (p : VOPLProject) (h : p.nodes = []) :
    (getMockScore now p).completeness.score = 10 ∧
    (getMockScore now p).issues.filter (fun i => i.severity == Severity.error) =
      [⟨.error, .completeness, none, none, none,
        "No nodes defined. Add at least one trigger and one output node."⟩] ∧
    (getMockScore now p).issues.filter
      (fun i => i.dimension == Dimension.ambiguity) = [] := by
  have hemp : p.nodes.isEmpty = true := by rw [h]; rfl
  have hcomp : completenessScoreOf p = 10 := by
    unfold completenessScoreOf
    rw [if_pos hemp]
  have hnode : nodeIssuesOf p =
      [⟨.error, .completeness, none, none, none,
        "No nodes defined. Add at least one trigger and one output node."⟩] := by
    unfold nodeIssuesOf
    rw [if_pos hemp]
  have hunc : unconnectedIssuesOf p = [] := by
    unfold unconnectedIssuesOf penalisedUnconnected unconnectedNodes
    rw [h]
    simp
  have hstruct : structuralIssuesOf p = [] := by
    unfold structuralIssuesOf
    rw [h]
    simp
  refine ⟨?_, ?_, ?_⟩
  · show jsRound (completenessScoreOf p) = 10
    rw [hcomp]
    norm_num [jsRound, Int.floor_eq_iff]
  · show (contextIssuesOf p ++ nodeIssuesOf p ++ unconnectedIssuesOf p ++
      structuralIssuesOf p).filter (fun i => i.severity == Severity.error) = _
    rw [hnode, hunc, hstruct, List.filter_append, List.filter_append, List.filter_append]
    have hctx : (contextIssuesOf p).filter (fun i => i.severity == Severity.error) = [] := by
      unfold contextIssuesOf
      split <;> rfl
    rw [hctx]
    rfl
  · show (contextIssuesOf p ++ nodeIssuesOf p ++ unconnectedIssuesOf p ++
      structuralIssuesOf p).filter (fun i => i.dimension == Dimension.ambiguity) = []
    rw [hnode, hunc, hstruct, List.filter_append, List.filter_append, List.filter_append]
    have hctx : (contextIssuesOf p).filter (fun i => i.dimension == Dimension.ambiguity) = [] := by
      unfold contextIssuesOf
      split <;> rfl
    rw [hctx]
    rfl

/-- Witness for C6: a project with all six context fields filled but no
nodes still gets the forced completeness floor of 10 and the single error
issue. -/
theorem no_nodes_floor_witness :
    (getMockScore 7 c6WitnessProject).completeness.score = 10 ∧
    (getMockScore 7 c6WitnessProject).issues.filter
      (fun i => i.severity == Severity.error) =
      [⟨.error, .completeness, none, none, none,
        "No nodes defined. Add at least one trigger and one output node."⟩] ∧
    (getMockScore 7 c6WitnessProject).issues.filter
      (fun i => i.dimension == Dimension.ambiguity) = [] :=
  no_nodes_floor 7 c6WitnessProject rfl

/-- C3: `analyzeSpec` never propagates an error: with no configured
credential it returns the heuristic scorer's result whatever the external
world would have answered (no network attempt), and with a credential it
catches every failure of the external call — transport error, non-text
response content, or unparseable JSON — and returns the heuristic scorer's
result for the same graph. -/
theorem analyzeSpec_falls_back (now : Nat) (p : VOPLProject) :
    (∀ outcome, analyzeSpec none now p outcome = getMockScore now p) ∧
    (∀ (apiKey : String) (outcome : AnalysisOutcome),
      outcome = .transportError ∨ outcome = .nonTextContent ∨ outcome = .parseError →
      analyzeSpec (some apiKey) now p outcome = getMockScore now p) := by
  constructor
  · intro outcome
    simp [analyzeSpec, jsKeyMissing]
  · rintro apiKey outcome (rfl | rfl | rfl) <;>
      by_cases h : apiKey = "" <;>
      simp [analyzeSpec, jsKeyMissing, h]

/-- Witness for C3: concrete failure outcomes degrade to the heuristic
result on the empty project. -/
theorem analyzeSpec_falls_back_witness :
    analyzeSpec (some "key") 0 emptyProject .transportError = getMockScore 0 emptyProject ∧
    analyzeSpec none 0 emptyProject .parseError = getMockScore 0 emptyProject :=
  ⟨(analyzeSpec_falls_back 0 emptyProject).2 "key" .transportError (Or.inl rfl),
   (analyzeSpec_falls_back 0 emptyProject).1 .parseError⟩

/-- C9: when the requested node id does not exist in the graph,
`autogenField` returns the not-found failure result (success `false`,
error `Node not found`) instead of throwing — directly via the mock
generator when no credential is configured, and via the caught
`buildAutogenPrompt` exception when one is. -/
theorem autogenField_not_found (apiKey : Option String) (context : AutogenContext)
    (outcome : AutogenOutcome)
    (h : context.project.nodes.find? (fun n => n.id == context.nodeId) = none) :
    autogenField apiKey context outcome =
      ⟨false, context.field, .str "", some "Node not found"⟩ := by
  have hmock : getMockAutogenResult context =
      ⟨false, context.field, .str "", some "Node not found"⟩ := by
    unfold getMockAutogenResult
    rw [h]
  have hprompt : buildAutogenPrompt context =
      .error ("Node " ++ context.nodeId ++ " not found") := by
    unfold buildAutogenPrompt
    rw [h]
  unfold autogenField
  split
  · exact hmock
  · rw [hprompt]
    exact hmock

/-- Witness for C9: a request naming the absent id `ghost`, with a
credential configured and even a successfully parsed external value,
still yields the not-found mock result. -/
theorem autogenField_not_found_witness :
    autogenField (some "key") c9WitnessContext (.parsed (.str "x")) =
      ⟨false, .intent, .str "", some "Node not found"⟩ :=
  autogenField_not_found (some "key") c9WitnessContext (.parsed (.str "x")) rfl

/-- C10: the store's `deleteNode` removes exactly the node with the given
id and every edge whose source or target is that id, leaves all other
nodes and edges (in order) and the system context unchanged, and afterwards
no edge referencing the deleted node remains. -/
theorem deleteNode_spec (now : Nat) (nodeId : String) (state : ProjectState) :
    (∀ n : VOPLNode, n ∈ (deleteNode now nodeId state).project.nodes ↔
      (n ∈ state.project.nodes ∧ n.id ≠ nodeId)) ∧
    (deleteNode now nodeId state).project.nodes.Sublist state.project.nodes ∧
    (∀ e : VOPLEdge, e ∈ (deleteNode now nodeId state).project.edges ↔
      (e ∈ state.project.edges ∧ e.source ≠ nodeId ∧ e.target ≠ nodeId)) ∧
    (deleteNode now nodeId state).project.edges.Sublist state.project.edges ∧
    (deleteNode now nodeId state).project.systemContext = state.project.systemContext ∧
    (∀ e ∈ (deleteNode now nodeId state).project.edges,
      e.source ≠ nodeId ∧ e.target ≠ nodeId) := by
  refine ⟨?_, ?_, ?_, ?_, rfl, ?_⟩
  · intro n
    simp [deleteNode, List.mem_filter, bne_iff_ne]
  · exact List.filter_sublist _
  · intro e
    simp [deleteNode, List.mem_filter, bne_iff_ne]
  · exact List.filter_sublist _
  · intro e he
    have h := (List.mem_filter.mp he).2
    simp only [Bool.and_eq_true, bne_iff_ne] at h
    exact h

/-- Witness for C10: the surviving self-loop on node `b` does not
reference the deleted node `a`. -/
theorem deleteNode_spec_witness :
    (⟨"e2", "b", "b", none, none, none⟩ : VOPLEdge).source ≠ "a" ∧
    (⟨"e2", "b", "b", none, none, none⟩ : VOPLEdge).target ≠ "a" :=
  (deleteNode_spec 5 "a" c10WitnessState).2.2.2.2.2
    ⟨"e2", "b", "b", none, none, none⟩ (by decide)

/-- C4: the per-node completeness score is exactly the sum of the six
credits (10 for a customized non-empty name, 20 for an intent longer than
20 characters, 30 for a behavior longer than 50 characters, 15 each for
some input/output port with a non-empty shape other than `unknown`, 10 for
at least one example); and upgrading the shape of a node's only input port
from `unknown` to any non-empty non-`unknown` string raises its score by
exactly 15 points. -/
theorem nodeScore_spec :
    (∀ node : VOPLNode,
      nodeScore node =
        (if node.data.name ≠ "" ∧ jsStartsWith node.data.name "New " = false then 10 else 0) +
        (if 20 < jsLength node.data.intent then 20 else 0) +
        (if 50 < jsLength node.data.behavior then 30 else 0) +
        (if ∃ i ∈ node.data.inputs, i.shape ≠ "" ∧ i.shape ≠ "unknown" then 15 else 0) +
        (if ∃ o ∈ node.data.outputs, o.shape ≠ "" ∧ o.shape ≠ "unknown" then 15 else 0) +
        (if node.data.examples ≠ [] then 10 else 0)) ∧
    (∀ (node : VOPLNode) (port : PortDefinition) (sh : String),
      node.data.inputs = [port] → port.shape = "unknown" → sh ≠ "" → sh ≠ "unknown" →
      nodeScore { node with data := { node.data with inputs := [{ port with shape := sh }] } } =
        nodeScore node + 15) := by
  have h20 : ∀ s : String, (s ≠ "" ∧ 20 < jsLength s) ↔ 20 < jsLength s := by
    intro s
    constructor
    · exact fun hx => hx.2
    · intro hx
      refine ⟨?_, hx⟩
      intro he
      rw [he] at hx
      exact absurd hx (by decide)
  have h50 : ∀ s : String, (s ≠ "" ∧ 50 < jsLength s) ↔ 50 < jsLength s := by
    intro s
    constructor
    · exact fun hx => hx.2
    · intro hx
      refine ⟨?_, hx⟩
      intro he
      rw [he] at hx
      exact absurd hx (by decide)
  constructor
  · intro node
    unfold nodeScore
    simp only [Bool.and_eq_true, bne_iff_ne, Bool.not_eq_true', decide_eq_true_eq,
      List.any_eq_true, List.length_pos, h20, h50]
  · rintro node port sh h1 h2 h3 h4
    unfold nodeScore
    simp only [h1, List.any_cons, List.any_nil, Bool.or_false, h2]
    have hsh : (sh != "" && sh != "unknown") = true := by
      rw [Bool.and_eq_true, bne_iff_ne, bne_iff_ne]
      exact ⟨h3, h4⟩
    have hneg : ¬ ((("unknown" : String) != "" && ("unknown" : String) != "unknown") = true) := by
      decide
    rw [if_pos hsh, if_neg hneg]
    omega

/-- Witness for C4: a node whose single input port has shape `unknown`
gains exactly 15 points when that shape becomes `string`. -/
theorem nodeScore_spec_witness :
    nodeScore { c4WitnessNode with data := { c4WitnessNode.data with
        inputs := [{ (⟨"body", "Request body", "unknown"⟩ : PortDefinition) with
          shape := "string" }] } } = nodeScore c4WitnessNode + 15 :=
  nodeScore_spec.2 c4WitnessNode ⟨"body", "Request body", "unknown"⟩ "string"
    rfl rfl (by decide) (by decide)

/-- C7: `inferFieldFromIssue` is total (its `Option` codomain covers the
six field kinds and `none`); a present, non-empty explicit field name
always decides the result through the six-name map — with precedence over
every message keyword and dimension — and the map sends each of the six
recognised names to its field kind; a non-empty unrecognised explicit name
yields `none`; with no explicit field (absent or empty) and no keyword
match, the dimension decides: completeness yields `behavior`, ambiguity
yields `intent`, any other dimension yields `none`. -/
theorem inferFieldFromIssue_spec :
    (∀ (issue : SpecIssue) (f : String), issue.field = some f → f ≠ "" →
      inferFieldFromIssue issue = fieldMap f) ∧
    (fieldMap "intent" = some .intent ∧ fieldMap "behavior" = some .behavior ∧
     fieldMap "inputs" = some .inputs ∧ fieldMap "outputs" = some .outputs ∧
     fieldMap "examples" = some .examples ∧ fieldMap "constraints" = some .constraints) ∧
    (∀ (issue : SpecIssue) (f : String), issue.field = some f → f ≠ "" →
      f ≠ "intent" → f ≠ "behavior" → f ≠ "inputs" → f ≠ "outputs" →
      f ≠ "examples" → f ≠ "constraints" →
      inferFieldFromIssue issue = none) ∧
    (∀ issue : SpecIssue, (issue.field = none ∨ issue.field = some "") →
      keywordField (jsToLower issue.message) = none →
      inferFieldFromIssue issue =
        (if issue.dimension = .completeness then some .behavior
         else if issue.dimension = .ambiguity then some .intent
         else none)) := by
  refine ⟨?_, ⟨rfl, rfl, rfl, rfl, rfl, rfl⟩, ?_, ?_⟩
  · intro issue f hf hne
    unfold inferFieldFromIssue
    rw [hf]
    show (if (f != "") = true then fieldMap f
      else inferFromMessageOrDimension (jsToLower issue.message) issue.dimension) = fieldMap f
    rw [if_pos (bne_iff_ne.mpr hne)]
  · intro issue f hf hne h1 h2 h3 h4 h5 h6
    unfold inferFieldFromIssue
    rw [hf]
    show (if (f != "") = true then fieldMap f
      else inferFromMessageOrDimension (jsToLower issue.message) issue.dimension) = none
    rw [if_pos (bne_iff_ne.mpr hne)]
    unfold fieldMap
    rw [if_neg (fun hx => h1 (beq_iff_eq.mp hx)),
        if_neg (fun hx => h2 (beq_iff_eq.mp hx)),
        if_neg (fun hx => h3 (beq_iff_eq.mp hx)),
        if_neg (fun hx => h4 (beq_iff_eq.mp hx)),
        if_neg (fun hx => h5 (beq_iff_eq.mp hx)),
        if_neg (fun hx => h6 (beq_iff_eq.mp hx))]
  · intro issue hf hk
    have haux : inferFromMessageOrDimension (jsToLower issue.message) issue.dimension =
        (if issue.dimension = .completeness then some .behavior
         else if issue.dimension = .ambiguity then some .intent
         else none) := by
      unfold inferFromMessageOrDimension
      rw [hk]
      unfold dimensionDefaultField
      by_cases hd1 : issue.dimension = Dimension.completeness
      · rw [if_pos (beq_iff_eq.mpr hd1), if_pos hd1]
      · rw [if_neg (fun hx => hd1 (beq_iff_eq.mp hx)), if_neg hd1]
        by_cases hd2 : issue.dimension = Dimension.ambiguity
        · rw [if_pos (beq_iff_eq.mpr hd2), if_pos hd2]
        · rw [if_neg (fun hx => hd2 (beq_iff_eq.mp hx)), if_neg hd2]
    rcases hf with hf | hf
    · unfold inferFieldFromIssue
      rw [hf]
      exact haux
    · unfold inferFieldFromIssue
      rw [hf]
      exact haux

/-- Witness for C7: explicit field `examples` wins over a message full of
behavior keywords; explicit field `banana` yields `none`; no field and the
keyword-free message `zzz` falls back to the completeness dimension's
default `behavior`. -/
theorem inferFieldFromIssue_witness :
    inferFieldFromIssue ⟨.warning, .consistency, none, none, some "examples",
      "improve the behavior description"⟩ = some .examples ∧
    inferFieldFromIssue ⟨.warning, .completeness, none, none, some "banana", "x"⟩ = none ∧
    inferFieldFromIssue ⟨.warning, .completeness, none, none, none, "zzz"⟩ = some .behavior := by
  refine ⟨?_,
    inferFieldFromIssue_spec.2.2.1 _ "banana" rfl (by decide) (by decide) (by decide)
      (by decide) (by decide) (by decide) (by decide), ?_⟩
  · have h := inferFieldFromIssue_spec.1
      ⟨.warning, .consistency, none, none, some "examples",
        "improve the behavior description"⟩ "examples" rfl (by decide)
    rw [h]
    rfl
  · have h := inferFieldFromIssue_spec.2.2.2
      ⟨.warning, .completeness, none, none, none, "zzz"⟩ (Or.inl rfl) (by decide)
    rw [h]
    decide

/-- C8: `inferFieldFromSuggestion` returns `none` exactly when the graph
has no nodes; for every suggestion against a non-empty graph it returns
the keyword classification of the target node, where the target is the
first node (in graph order) whose literal name occurs in the suggestion
text, defaulting to the graph's first node when no name matches; the
classification always carries the target's id; and on the fixed suggestion
`Add detailed behavior descriptions with error handling to each node.` the
selected field is `behavior` with that target's id. -/
theorem inferFieldFromSuggestion_spec :
    (∀ (suggestion : String) (p : VOPLProject),
      inferFieldFromSuggestion suggestion p = none ↔ p.nodes = []) ∧
    (∀ (suggestion : String) (p : VOPLProject) (t : VOPLNode) (ts : List VOPLNode),
      p.nodes = t :: ts →
      inferFieldFromSuggestion suggestion p =
        some (suggestionFieldFor (jsToLower suggestion)
          ((p.nodes.find? (fun node =>
            jsIncludes suggestion node.data.name)).getD t))) ∧
    (∀ (suggestionLower : String) (u : VOPLNode),
      (suggestionFieldFor suggestionLower u).2 = u.id) ∧
    (∀ (p : VOPLProject) (t : VOPLNode) (ts : List VOPLNode), p.nodes = t :: ts →
      inferFieldFromSuggestion
        "Add detailed behavior descriptions with error handling to each node." p =
        some (.behavior,
          ((p.nodes.find? (fun node => jsIncludes
            "Add detailed behavior descriptions with error handling to each node."
            node.data.name)).getD t).id)) := by
  have hnone : ∀ (suggestion : String) (p : VOPLProject),
      inferFieldFromSuggestion suggestion p = none ↔ p.nodes = [] := by
    intro suggestion p
    cases hl : p.nodes with
    | nil => simp [inferFieldFromSuggestion, hl]
    | cons t ts =>
      simp only [inferFieldFromSuggestion, hl]
      cases hfind : List.find? (fun node => jsIncludes suggestion node.data.name) (t :: ts) with
      | some n => simp
      | none => simp
  have hsel : ∀ (suggestion : String) (p : VOPLProject) (t : VOPLNode) (ts : List VOPLNode),
      p.nodes = t :: ts →
      inferFieldFromSuggestion suggestion p =
        some (suggestionFieldFor (jsToLower suggestion)
          ((p.nodes.find? (fun node => jsIncludes suggestion node.data.name)).getD t)) := by
    intro suggestion p t ts hl
    simp only [inferFieldFromSuggestion, hl]
    cases hfind : List.find? (fun node => jsIncludes suggestion node.data.name) (t :: ts) with
    | some n => rfl
    | none => rfl
  have hsnd : ∀ (suggestionLower : String) (u : VOPLNode),
      (suggestionFieldFor suggestionLower u).2 = u.id := by
    intro suggestionLower u
    unfold suggestionFieldFor
    repeat' split
    all_goals rfl
  refine ⟨hnone, hsel, hsnd, ?_⟩
  intro p t ts hl
  have hb : ∀ u : VOPLNode,
      suggestionFieldFor (jsToLower
        "Add detailed behavior descriptions with error handling to each node.") u =
      (.behavior, u.id) := by
    intro u
    unfold suggestionFieldFor
    rw [if_pos (by decide)]
  rw [hsel "Add detailed behavior descriptions with error handling to each node." p t ts hl,
    hb]

/-- Witness for C8: against a two-node graph whose second node is named
`each node`, the fixed suggestion targets that node with field `behavior`;
the general selection rule applied to a type/shape suggestion matching no
node name defaults to the first node with field `inputs`; against the
empty graph the result is `none`. -/
theorem inferFieldFromSuggestion_witness :
    inferFieldFromSuggestion
      "Add detailed behavior descriptions with error handling to each node."
      c8WitnessProject = some (.behavior, "n8b") ∧
    inferFieldFromSuggestion "tighten the type and shape of the input ports"
      c8WitnessProject = some (.inputs, "n8a") ∧
    inferFieldFromSuggestion "anything" emptyProject = none := by
  refine ⟨?_, ?_, (inferFieldFromSuggestion_spec.1 "anything" emptyProject).mpr rfl⟩
  · have h := inferFieldFromSuggestion_spec.2.2.2 c8WitnessProject c8NodeA [c8NodeB] rfl
    rw [h]
    decide
  · have h := inferFieldFromSuggestion_spec.2.1
      "tighten the type and shape of the input ports" c8WitnessProject c8NodeA [c8NodeB] rfl
    rw [h]
    decide

end VOPL
